import Mathlib

/-!
The x264-encoder program: a two-pass H.264 transcoding driver

A shallow embedding of `src/main.cpp`.  The program is a driver around the
libav* libraries; the libraries are not part of the program, so every call into
them is answered by an explicit environment (the values the library returns in
one run), and every call that matters to the properties below is recorded in a
trace of events.
-/

namespace X264

/-! ## Strings and output file name -/

/-- Model of `std::string::find_last_of(char)`: the greatest index holding `c`,
`none` standing for `std::string::npos`. -/
def find_last_of : List Char → Char → Option Nat
  | [], _ => none
  | x :: xs, c =>
    match find_last_of xs c with
    | some i => some (i + 1)
    | none => if x = c then some 0 else none

/-- Model of `output.replace(pos, std::string::npos, t)`: everything from index
`pos` to the end is replaced by `t`. -/
def replace_to_end (s : List Char) (pos : Nat) (t : List Char) : List Char :=
  s.take pos ++ t

/-- The function `changeExtensionToMp4` of `src/main.cpp`, lines 17-26. -/
def changeExtensionToMp4 (input : String) : String :=
  let output := input
  match find_last_of output.data '.' with
  | some pos => ⟨replace_to_end output.data pos ".mp4".data⟩
  | none => output ++ ".mp4"

/-! ## Library constants and data

Values of the libav* headers the program is compiled against. -/

/-- The error code `AVERROR(EAGAIN)` (`-EAGAIN`, that is `-11` on Linux). -/
def AVERROR_EAGAIN : Int := -11

/-- The error code `AVERROR_EOF`, `FFERRTAG('E','O','F',' ')`. -/
def AVERROR_EOF : Int := -541478725

/-- The muxer flag `AVFMT_NOFILE`. -/
def AVFMT_NOFILE : Nat := 0x0001

/-- The muxer flag `AVFMT_GLOBALHEADER`. -/
def AVFMT_GLOBALHEADER : Nat := 0x0040

/-- The codec flag `AV_CODEC_FLAG_GLOBAL_HEADER`, `1 << 22`. -/
def AV_CODEC_FLAG_GLOBAL_HEADER : Nat := 2 ^ 22

/-- The threading method `FF_THREAD_FRAME`. -/
def FF_THREAD_FRAME : Int := 1

/-- The pixel format `AV_PIX_FMT_YUV420P`. -/
def AV_PIX_FMT_YUV420P : Int := 0

/-- The rational number type `AVRational`. -/
structure AVRational where
  num : Int
  den : Int
deriving DecidableEq, Repr

/-- The fields of an `AVCodecContext` that `encode_pass` reads or writes. -/
structure AVCodecContext where
  height : Int
  width : Int
  sample_aspect_ratio : AVRational
  pix_fmt : Int
  time_base : AVRational
  flags : Nat
  thread_count : Int
  thread_type : Int
  bit_rate : Int
  gop_size : Int
  max_b_frames : Int
deriving DecidableEq, Repr

/-- An `AVDictionary`: the key/value entries it holds. -/
abbrev AVDictionary := List (String × String)

/-- Model of `av_dict_set(&d, key, value, 0)`: an entry with the same key is
replaced, otherwise the entry is added. -/
def av_dict_set (d : AVDictionary) (key value : String) : AVDictionary :=
  d.filter (fun e => e.1 != key) ++ [(key, value)]

/-- Model of `av_dict_get`: the value stored under `key`, if any. -/
def av_dict_get (d : AVDictionary) (key : String) : Option String :=
  (d.find? (fun e => e.1 == key)).map Prod.snd

/-- A decoded picture: the presentation timestamp the decoder gave it and an
identifier of its content. -/
structure AVFrame where
  pts : Int
  data : Nat
deriving DecidableEq, Repr

/-- Wrap-around of a value into the range of `int64_t`, used for
`frame_counter++`; the statements about timestamps below hold for runs of at most
`2 ^ 63` frames, in which the counter never leaves that range. -/
def wrap64 (x : Int) : Int := (x + 2 ^ 63) % 2 ^ 64 - 2 ^ 63

/-! ## Traces -/

/-- The resources a pass acquires from the libraries. -/
inductive Resource
  | input_format_context
  | input_codec_context
  | output_format_context
  | output_codec_context
  | output_io
  | sws_ctx
deriving DecidableEq, Repr

/-- The library calls a run records. -/
inductive Event
  /-- A resource came into existence (the acquiring call succeeded). -/
  | acquire (r : Resource)
  /-- The releasing call of a resource was made. -/
  | release (r : Resource)
  /-- The call `avformat_open_input(&ctx, filename, ...)`. -/
  | avformat_open_input (filename : String)
  /-- The call `avformat_alloc_output_context2(&ctx, nullptr, format, filename)`. -/
  | avformat_alloc_output_context2 (format filename : String)
  /-- The call `avcodec_open2` on the encoder context with its options. -/
  | avcodec_open2_output (ctx : AVCodecContext) (options : AVDictionary)
  /-- The call `avio_open(&pb, filename, AVIO_FLAG_WRITE)`. -/
  | avio_open (filename : String)
  /-- The call `avformat_write_header`. -/
  | avformat_write_header
  /-- A call of `avcodec_receive_frame` that delivered a frame. -/
  | avcodec_receive_frame (frame : AVFrame)
  /-- The call `avcodec_send_frame`: `some (source, pts)` for the output frame
  holding the converted picture of `source` and timestamp `pts`, `none` for the
  flush request `avcodec_send_frame(ctx, nullptr)`. -/
  | avcodec_send_frame (frame : Option (AVFrame × Int))
  /-- The writer mutex is locked. -/
  | lock
  /-- The writer mutex is unlocked. -/
  | unlock
  /-- The call `av_interleaved_write_frame`. -/
  | av_interleaved_write_frame
  /-- The call `av_write_trailer`. -/
  | av_write_trailer
deriving DecidableEq, Repr

deriving instance DecidableEq for Except

/-- A run of a piece of the program: the events it produced and either the value
it returned or the message of the `std::runtime_error` it threw. -/
structure Run (α : Type) where
  trace : List Event
  result : Except String α

/-- Sequencing: a thrown error ends the run, the trace so far is kept. -/
def Run.bind {α β : Type} (r : Run α) (k : α → Run β) : Run β :=
  match r.result with
  | .error e => ⟨r.trace, .error e⟩
  | .ok a => ⟨r.trace ++ (k a).trace, (k a).result⟩

instance : Monad Run where
  pure a := ⟨[], .ok a⟩
  bind := Run.bind

/-- Record one event. -/
def emit (e : Event) : Run Unit := ⟨[e], .ok ()⟩

/-- The statement `throw std::runtime_error(msg)`. -/
def raise {α : Type} (msg : String) : Run α := ⟨[], .error msg⟩

/-! ## The environment of a pass -/

/-- Answers of the library during one call of `allocate_frame`. -/
structure AllocFrameEnv where
  /-- Whether `av_frame_alloc` returns a frame. -/
  av_frame_alloc : Bool
  /-- Return value of `av_frame_get_buffer`. -/
  av_frame_get_buffer : Int
deriving Repr

/-- Answers of the library during one call of `encode_frame`. -/
structure EncodeFrameEnv where
  /-- Whether `av_packet_alloc` returns a packet. -/
  av_packet_alloc : Bool
  /-- Return value of `avcodec_send_frame`. -/
  avcodec_send_frame : Int
  /-- Return values of the successive calls of `avcodec_receive_packet`, each
  with the return value of the `av_interleaved_write_frame` that follows it.
  An encoder holds finitely many packets: after these answers it gives
  `AVERROR(EAGAIN)`. -/
  packets : List (Int × Int)
deriving Repr

/-- Answers of the library during one round of the inner decoding loop. -/
structure ReceiveFrameEnv where
  /-- Return value of `avcodec_receive_frame`. -/
  avcodec_receive_frame : Int
  /-- The frame delivered when that return value is not negative. -/
  frame : AVFrame
  /-- Whether `av_frame_clone` returns a frame. -/
  av_frame_clone : Bool
  /-- The answers during the `encode_frame` call on that frame. -/
  encode : EncodeFrameEnv
deriving Repr

/-- Answers of the library during one round of the reading loop. -/
structure ReadFrameEnv where
  /-- Return value of `av_read_frame`. -/
  av_read_frame : Int
  /-- The field `packet.stream_index` of the packet read. -/
  stream_index : Int
  /-- Return value of `avcodec_send_packet`. -/
  avcodec_send_packet : Int
  /-- The rounds of the inner decoding loop; a decoder holds finitely many
  frames: after these answers it gives `AVERROR(EAGAIN)`. -/
  frames : List ReceiveFrameEnv
deriving Repr

/-- Answers of the library during one round of the flush loop. -/
structure FlushEnv where
  /-- Whether `av_packet_alloc` returns a packet. -/
  av_packet_alloc : Bool
  /-- Return value of `avcodec_receive_packet`. -/
  avcodec_receive_packet : Int
  /-- Return value of `av_interleaved_write_frame`. -/
  av_interleaved_write_frame : Int
deriving Repr

/-- Answers of the library during one call of `encode_pass`. -/
structure PassEnv where
  avformat_open_input : Int
  avformat_find_stream_info : Int
  av_find_best_stream : Int
  /-- Fields of the decoder context after `avcodec_parameters_to_context`. -/
  input_height : Int
  input_width : Int
  input_sample_aspect_ratio : AVRational
  input_pix_fmt : Int
  /-- Return value of `avcodec_open2` on the decoder context. -/
  avcodec_open2_input : Int
  /-- Whether `avformat_alloc_output_context2` sets a context. -/
  avformat_alloc_output_context2 : Bool
  /-- Whether `avcodec_find_encoder_by_name("libx264")` finds the encoder. -/
  avcodec_find_encoder_by_name : Bool
  /-- Whether `avformat_new_stream` returns a stream. -/
  avformat_new_stream : Bool
  /-- The field `output_format_context->oformat->flags`. -/
  oformat_flags : Nat
  /-- Return value of `avcodec_open2` on the encoder context. -/
  avcodec_open2_output : Int
  avio_open : Int
  avformat_write_header : Int
  /-- The two calls of `allocate_frame`. -/
  allocate_frame : AllocFrameEnv
  allocate_output_frame : AllocFrameEnv
  /-- Whether `sws_getContext` returns a context. -/
  sws_getContext : Bool
  /-- The rounds of the reading loop; a container holds finitely many packets:
  after these answers `av_read_frame` gives `AVERROR_EOF`. -/
  reads : List ReadFrameEnv
  /-- Return value of `avcodec_send_frame(ctx, nullptr)`. -/
  flush_send_frame : Int
  /-- The rounds of the flush loop; after these answers
  `avcodec_receive_packet` gives `AVERROR_EOF`. -/
  flush : List FlushEnv
  /-- Return value of `av_write_trailer`. -/
  av_write_trailer : Int
deriving Repr

/-! ## The program -/

/-- The function `allocate_frame`, lines 41-54. -/
def allocate_frame (env : AllocFrameEnv) : Run Unit := do
  if !env.av_frame_alloc then
    raise "Could not allocate frame."
  if env.av_frame_get_buffer < 0 then
    raise "Could not allocate the video frame data."

/-- The loop `while (response >= 0)` of `encode_frame`, lines 75-95: packets are
received from the encoder and each is written under the writer mutex.  A
`std::lock_guard` unlocks when its scope is left, also by a throw. -/
def encode_frame_packets : List (Int × Int) → Run Unit
  | [] => pure ()
  | (response, write) :: rest =>
    if response = AVERROR_EAGAIN ∨ response = AVERROR_EOF then
      pure ()
    else if response < 0 then
      raise ("Error while receiving packet from encoder: " ++ toString response)
    else do
      emit .lock
      emit .av_interleaved_write_frame
      if write < 0 then
        emit .unlock
        raise "Error while writing packet to output file."
      emit .unlock
      encode_frame_packets rest

/-- The function `encode_frame`, lines 56-98.  It returns the value of
`frame_counter` it leaves behind. -/
def encode_frame (env : EncodeFrameEnv) (frame : AVFrame) (frame_counter : Int) :
    Run Int := do
  if !env.av_packet_alloc then
    raise "Could not allocate AVPacket."
  -- sws_scale(...); output_frame->pts = frame_counter++;
  let pts := frame_counter
  let frame_counter := wrap64 (frame_counter + 1)
  emit (.avcodec_send_frame (some (frame, pts)))
  let response := env.avcodec_send_frame
  if response < 0 then
    raise ("Error while sending frame to encoder: " ++ toString response)
  encode_frame_packets env.packets
  pure frame_counter

/-- The inner loop `while (response >= 0)` of `encode_pass`, lines 232-248. -/
def receive_frames : List ReceiveFrameEnv → Int → Run Int
  | [], frame_counter => pure frame_counter
  | r :: rest, frame_counter =>
    if r.avcodec_receive_frame = AVERROR_EAGAIN ∨ r.avcodec_receive_frame = AVERROR_EOF then
      pure frame_counter
    else if r.avcodec_receive_frame < 0 then
      raise "Error while receiving frame from decoder."
    else do
      emit (.avcodec_receive_frame r.frame)
      if !r.av_frame_clone then
        raise "Could not clone frame."
      let frame_counter ← encode_frame r.encode r.frame frame_counter
      receive_frames rest frame_counter

/-- The loop `while (av_read_frame(...) >= 0)` of `encode_pass`, lines 224-251. -/
def read_frames : List ReadFrameEnv → Int → Int → Run Int
  | [], _, frame_counter => pure frame_counter
  | p :: rest, video_stream_index, frame_counter =>
    if p.av_read_frame ≥ 0 then do
      let frame_counter ←
        if p.stream_index = video_stream_index then do
          if p.avcodec_send_packet < 0 then
            raise "Error while sending packet to decoder."
          receive_frames p.frames frame_counter
        else
          pure frame_counter
      read_frames rest video_stream_index frame_counter
    else
      pure frame_counter

/-- The flush loop `while (response >= 0)` of `encode_pass`, lines 258-282. -/
def flush_packets : List FlushEnv → Run Unit
  | [] => pure ()
  | f :: rest => do
    if !f.av_packet_alloc then
      raise "Could not allocate AVPacket."
    if f.avcodec_receive_packet = AVERROR_EOF then
      pure ()
    else if f.avcodec_receive_packet < 0 then
      raise "Error while receiving packet from encoder."
    else do
      emit .av_interleaved_write_frame
      if f.av_interleaved_write_frame < 0 then
        raise "Error while writing packet to output file."
      flush_packets rest

/-- The encoder context as `encode_pass` fills it in, lines 148-166. -/
def output_codec_context (env : PassEnv) : AVCodecContext :=
  { height := env.input_height
    width := env.input_width
    sample_aspect_ratio := env.input_sample_aspect_ratio
    pix_fmt := AV_PIX_FMT_YUV420P
    time_base := ⟨1, 60⟩
    flags := if env.oformat_flags &&& AVFMT_GLOBALHEADER ≠ 0 then
        0 ||| AV_CODEC_FLAG_GLOBAL_HEADER else 0
    thread_count := 32
    thread_type := FF_THREAD_FRAME
    bit_rate := 500000
    gop_size := 60
    max_b_frames := 3 }

/-- The encoder options as `encode_pass` builds them, lines 168-180. -/
def codec_options (is_first_pass : Bool) : AVDictionary :=
  let codec_options : AVDictionary := []
  let codec_options := av_dict_set codec_options "preset" "veryfast"
  let codec_options := av_dict_set codec_options "crf" "28"
  let codec_options := av_dict_set codec_options "tune" "film"
  let codec_options := av_dict_set codec_options "profile" "high"
  if is_first_pass then
    let codec_options := av_dict_set codec_options "pass" "1"
    av_dict_set codec_options "b:v" "500k"
  else
    let codec_options := av_dict_set codec_options "pass" "2"
    av_dict_set codec_options "b:v" "500k"

/-- The function `encode_pass`, lines 100-294.  Each `if (...) { ...; throw ...; }`
of the source is an `if ... then ... raise ... else` here, the `else` holding the
rest of the function. -/
def encode_pass (env : PassEnv) (input_filename output_filename : String)
    (is_first_pass : Bool) : Run Unit := do
  emit (.avformat_open_input input_filename)
  if env.avformat_open_input ≠ 0 then
    raise "Could not open input file."
  else
  emit (.acquire .input_format_context)
  if env.avformat_find_stream_info < 0 then
    emit (.release .input_format_context)
    raise "Could not find stream info."
  else
  let video_stream_index := env.av_find_best_stream
  if video_stream_index < 0 then
    emit (.release .input_format_context)
    raise "Could not find video stream in the input file."
  else
  emit (.acquire .input_codec_context)
  if env.avcodec_open2_input < 0 then
    emit (.release .input_codec_context)
    emit (.release .input_format_context)
    raise "Could not open input codec."
  else
  emit (.avformat_alloc_output_context2 "mp4" output_filename)
  if !env.avformat_alloc_output_context2 then
    emit (.release .input_codec_context)
    raise "Could not create output context."
  else
  emit (.acquire .output_format_context)
  if !env.avcodec_find_encoder_by_name then
    emit (.release .input_codec_context)
    emit (.release .output_format_context)
    raise "Could not find libx264 codec."
  else
  if !env.avformat_new_stream then
    emit (.release .input_codec_context)
    emit (.release .output_format_context)
    raise "Could not create output stream."
  else
  emit (.acquire .output_codec_context)
  emit (.avcodec_open2_output (output_codec_context env) (codec_options is_first_pass))
  if env.avcodec_open2_output < 0 then
    emit (.release .input_codec_context)
    emit (.release .output_codec_context)
    emit (.release .output_format_context)
    raise "Could not open output codec."
  else
  (if env.oformat_flags &&& AVFMT_NOFILE = 0 then do
    emit (.avio_open output_filename)
    if env.avio_open < 0 then
      emit (.release .input_codec_context)
      emit (.release .output_codec_context)
      emit (.release .output_format_context)
      raise "Could not open output file."
    else
    emit (.acquire .output_io)
  else pure ())
  emit .avformat_write_header
  if env.avformat_write_header < 0 then
    emit (.release .input_codec_context)
    emit (.release .output_codec_context)
    emit (.release .output_format_context)
    raise "Could not write output file header."
  else
  allocate_frame env.allocate_frame
  allocate_frame env.allocate_output_frame
  -- the result of sws_getContext is not looked at
  (if env.sws_getContext then emit (.acquire .sws_ctx) else pure ())
  let frame_counter : Int := 0
  let _ ← read_frames env.reads video_stream_index frame_counter
  emit (.avcodec_send_frame none)
  let response := env.flush_send_frame
  if response < 0 then
    raise "Error while sending flush frame to encoder."
  else
  flush_packets env.flush
  -- the return value of av_write_trailer is not looked at
  emit .av_write_trailer
  emit (.release .input_codec_context)
  emit (.release .output_codec_context)
  emit (.release .input_format_context)
  (if env.oformat_flags &&& AVFMT_NOFILE = 0 then emit (.release .output_io) else pure ())
  emit (.release .output_format_context)
  emit (.release .sws_ctx)

/-- The function `encode`, lines 296-299: the two passes, each with the answers
the library gives during it. -/
def encode (first_pass second_pass : PassEnv) (input_filename output_filename : String) :
    Run Unit := do
  encode_pass first_pass input_filename "/dev/null" true
  encode_pass second_pass input_filename output_filename false

/-- Answers of the operating system and the libraries during a run of `main`. -/
structure MainEnv where
  /-- Whether `std::fopen(filename, "r")` returns a stream. -/
  fopen : String → Bool
  /-- The current working directory when `getcwd` succeeds. -/
  getcwd : Option String
  first_pass : PassEnv
  second_pass : PassEnv

/-- The function `fileExists`, lines 28-30. -/
def fileExists (env : MainEnv) (filename : String) : Bool :=
  env.fopen filename

/-- The function `getAbsolutePath`, lines 32-39. -/
def getAbsolutePath (env : MainEnv) (filename : String) : Except String String :=
  match env.getcwd with
  | some buffer => .ok (buffer ++ "/" ++ filename)
  | none => .error "Could not get current working directory."

/-- What a run of `main` leaves behind. -/
structure MainResult where
  exit_code : Int
  stdout : String
  stderr : String
  trace : List Event

/-- The function `main`, lines 301-326; `argv` holds the program name and the
arguments, `argc` is its length.  In `std::cout << a << f() << b` the text `a`
is written before `f` is called (C++17). -/
def main (env : MainEnv) (argv : List String) : MainResult :=
  let argc := argv.length
  if argc < 2 then
    ⟨1, "", "Usage: " ++ argv.headD "" ++ " <input file>\n", []⟩
  else
    let input_filename := argv.getD 1 ""
    if !fileExists env input_filename then
      ⟨1, "", "Input file does not exist: " ++ input_filename ++ "\n", []⟩
    else
      let output_filename := changeExtensionToMp4 input_filename
      let run := encode env.first_pass env.second_pass input_filename output_filename
      match run.result with
      | .error what => ⟨1, "", what ++ "\n", run.trace⟩
      | .ok _ =>
        let out := "Encoding completed successfully.\n"
        let out := out ++ "Output file saved to: "
        match getAbsolutePath env output_filename with
        | .error what => ⟨1, out, what ++ "\n", run.trace⟩
        | .ok path => ⟨0, out ++ path ++ "\n", "", run.trace⟩

/-! ## Observations on traces -/

/-- The frames the decoder delivered in a run, in order. -/
def decoded_frames (t : List Event) : List AVFrame :=
  t.filterMap fun e => match e with
    | .avcodec_receive_frame f => some f
    | _ => none

/-- The frames submitted to the encoder in a run, in order: for each, the decoded
frame it was converted from and the timestamp it was given. -/
def submitted_frames (t : List Event) : List (AVFrame × Int) :=
  t.filterMap fun e => match e with
    | .avcodec_send_frame (some x) => some x
    | _ => none

/-- The frames of a list, each paired with its position in the list. -/
def numbered (fs : List AVFrame) : List (AVFrame × Int) :=
  fs.zip ((List.range fs.length).map Int.ofNat)

/-- The encoder configurations handed to `avcodec_open2` in a run. -/
def encoders_opened (t : List Event) : List (AVCodecContext × AVDictionary) :=
  t.filterMap fun e => match e with
    | .avcodec_open2_output ctx options => some (ctx, options)
    | _ => none

/-- The entries of a dictionary other than the one under `key`. -/
def entries_except (key : String) (d : AVDictionary) : AVDictionary :=
  d.filter (fun e => e.1 != key)

/-- The resources held after the events of a trace, starting from `held`:
`acquire` adds a resource, `release` drops it. -/
def held_after : List Resource → List Event → List Resource
  | held, [] => held
  | held, .acquire r :: t => held_after (held ++ [r]) t
  | held, .release r :: t => held_after (held.filter (fun x => x != r)) t
  | held, _ :: t => held_after held t

/-- The resources a run acquired and did not release. -/
def leaked (t : List Event) : List Resource := held_after [] t

/-- The number of calls of `av_interleaved_write_frame` made while the writer
mutex is not held; `locked` tells whether it is held at the start. -/
def unlocked_writes : Bool → List Event → Nat
  | _, [] => 0
  | _, .lock :: t => unlocked_writes true t
  | _, .unlock :: t => unlocked_writes false t
  | locked, .av_interleaved_write_frame :: t =>
    (if locked then 0 else 1) + unlocked_writes locked t
  | locked, _ :: t => unlocked_writes locked t

/-- The number of calls of `av_interleaved_write_frame` in a trace. -/
def writes (t : List Event) : Nat :=
  t.count .av_interleaved_write_frame

/-- Frames paired with the successive values of an `int64_t` counter. -/
def stamped : Int → List AVFrame → List (AVFrame × Int)
  | _, [] => []
  | c, f :: fs => (f, c) :: stamped (wrap64 (c + 1)) fs

/-- The value of an `int64_t` counter after `n` increments. -/
def advance : Nat → Int → Int
  | 0, c => c
  | n + 1, c => advance n (wrap64 (c + 1))

/-- What a piece of the program that threads the frame counter guarantees: the
frames submitted so far are the first frames decoded, stamped from the counter,
and when the piece returns every decoded frame was submitted. -/
structure Counts (c : Int) (r : Run Int) : Prop where
  pre : submitted_frames r.trace <+: stamped c (decoded_frames r.trace)
  ok : ∀ c', r.result = .ok c' →
    submitted_frames r.trace = stamped c (decoded_frames r.trace) ∧
    c' = advance (decoded_frames r.trace).length c

/-- Every event of the run satisfies `p`. -/
def Run.All {α : Type} (p : Event → Bool) (r : Run α) : Prop := ∀ e ∈ r.trace, p e = true

/-- The events the reading loop and the flush loop produce. -/
def Event.streaming : Event → Bool
  | .avcodec_receive_frame _ => true
  | .avcodec_send_frame _ => true
  | .lock => true
  | .unlock => true
  | .av_interleaved_write_frame => true
  | _ => false

/-- Events other than the delivery of a decoded frame and the submission of a
frame to the encoder. -/
def Event.no_frame : Event → Bool
  | .avcodec_receive_frame _ => false
  | .avcodec_send_frame (some _) => false
  | _ => true

/-- Events other than opening a file for writing under a name different from
`filename`. -/
def Event.opens_only (filename : String) : Event → Bool
  | .avio_open f => f == filename
  | .avformat_alloc_output_context2 _ f => f == filename
  | _ => true

/-- Events other than opening an encoder with a configuration different from
the given one. -/
def Event.configures_only (ctx : AVCodecContext) (options : AVDictionary) : Event → Bool
  | .avcodec_open2_output c o => decide (c = ctx ∧ o = options)
  | _ => true

/-- The part of `encode_pass` before the reading loop, lines 101-222. -/
def pass_setup (env : PassEnv) (input_filename output_filename : String)
    (is_first_pass : Bool) : Run Unit := do
  emit (.avformat_open_input input_filename)
  if env.avformat_open_input ≠ 0 then
    raise "Could not open input file."
  else
  emit (.acquire .input_format_context)
  if env.avformat_find_stream_info < 0 then
    emit (.release .input_format_context)
    raise "Could not find stream info."
  else
  let video_stream_index := env.av_find_best_stream
  if video_stream_index < 0 then
    emit (.release .input_format_context)
    raise "Could not find video stream in the input file."
  else
  emit (.acquire .input_codec_context)
  if env.avcodec_open2_input < 0 then
    emit (.release .input_codec_context)
    emit (.release .input_format_context)
    raise "Could not open input codec."
  else
  emit (.avformat_alloc_output_context2 "mp4" output_filename)
  if !env.avformat_alloc_output_context2 then
    emit (.release .input_codec_context)
    raise "Could not create output context."
  else
  emit (.acquire .output_format_context)
  if !env.avcodec_find_encoder_by_name then
    emit (.release .input_codec_context)
    emit (.release .output_format_context)
    raise "Could not find libx264 codec."
  else
  if !env.avformat_new_stream then
    emit (.release .input_codec_context)
    emit (.release .output_format_context)
    raise "Could not create output stream."
  else
  emit (.acquire .output_codec_context)
  emit (.avcodec_open2_output (output_codec_context env) (codec_options is_first_pass))
  if env.avcodec_open2_output < 0 then
    emit (.release .input_codec_context)
    emit (.release .output_codec_context)
    emit (.release .output_format_context)
    raise "Could not open output codec."
  else
  (if env.oformat_flags &&& AVFMT_NOFILE = 0 then do
    emit (.avio_open output_filename)
    if env.avio_open < 0 then
      emit (.release .input_codec_context)
      emit (.release .output_codec_context)
      emit (.release .output_format_context)
      raise "Could not open output file."
    else
    emit (.acquire .output_io)
  else pure ())
  emit .avformat_write_header
  if env.avformat_write_header < 0 then
    emit (.release .input_codec_context)
    emit (.release .output_codec_context)
    emit (.release .output_format_context)
    raise "Could not write output file header."
  else
  allocate_frame env.allocate_frame
  allocate_frame env.allocate_output_frame
  (if env.sws_getContext then emit (.acquire .sws_ctx) else pure ())

/-- The part of `encode_pass` after the reading loop, lines 253-293. -/
def pass_finish (env : PassEnv) : Run Unit := do
  emit (.avcodec_send_frame none)
  let response := env.flush_send_frame
  if response < 0 then
    raise "Error while sending flush frame to encoder."
  else
  flush_packets env.flush
  emit .av_write_trailer
  emit (.release .input_codec_context)
  emit (.release .output_codec_context)
  emit (.release .input_format_context)
  (if env.oformat_flags &&& AVFMT_NOFILE = 0 then emit (.release .output_io) else pure ())
  emit (.release .output_format_context)
  emit (.release .sws_ctx)

/-! ## Sample environments -/

/-- Answers of an `encode_frame` call in which every step succeeds and the encoder
hands out `n` packets. -/
def EncodeFrameEnv.smooth (n : Nat) : EncodeFrameEnv :=
  { av_packet_alloc := true, avcodec_send_frame := 0, packets := List.replicate n (0, 0) }

/-- A packet of the video stream (stream 0) that decodes to the one frame `frame`,
for which the encoder hands out `n` packets. -/
def video_packet (frame : AVFrame) (n : Nat) : ReadFrameEnv :=
  { av_read_frame := 0, stream_index := 0, avcodec_send_packet := 0,
    frames := [{ avcodec_receive_frame := 0, frame := frame, av_frame_clone := true,
                 encode := EncodeFrameEnv.smooth n }] }

/-- A packet of another stream (stream 1, say audio). -/
def other_packet : ReadFrameEnv :=
  { av_read_frame := 0, stream_index := 1, avcodec_send_packet := 0, frames := [] }

/-- A round of the flush loop that yields a packet and writes it. -/
def FlushEnv.smooth : FlushEnv :=
  { av_packet_alloc := true, avcodec_receive_packet := 0, av_interleaved_write_frame := 0 }

/-- A pass over a 640x480 input in which every library call succeeds, with the
given rounds of the reading loop and of the flush loop. -/
def PassEnv.smooth (reads : List ReadFrameEnv) (flush : List FlushEnv) : PassEnv :=
  { avformat_open_input := 0, avformat_find_stream_info := 0, av_find_best_stream := 0,
    input_height := 480, input_width := 640, input_sample_aspect_ratio := ⟨1, 1⟩,
    input_pix_fmt := 0, avcodec_open2_input := 0, avformat_alloc_output_context2 := true,
    avcodec_find_encoder_by_name := true, avformat_new_stream := true,
    oformat_flags := AVFMT_GLOBALHEADER, avcodec_open2_output := 0, avio_open := 0,
    avformat_write_header := 0, allocate_frame := ⟨true, 0⟩, allocate_output_frame := ⟨true, 0⟩,
    sws_getContext := true, reads := reads, flush_send_frame := 0, flush := flush,
    av_write_trailer := 0 }

/-- The packets of a clip of 2 seconds at 30 frames per second: 60 video packets,
one frame each, frame `i` carrying the timestamp `512 * i` (time base 1/15360). -/
def clip_2s_30fps : List ReadFrameEnv :=
  (List.range 60).map fun (i : Nat) => video_packet ⟨512 * Int.ofNat i, i⟩ 1

/-- A short input: three video frames with unrelated timestamps of their own and
an audio packet in between. -/
def short_clip : List ReadFrameEnv :=
  [video_packet ⟨9000, 0⟩ 0, other_packet, video_packet ⟨-4, 1⟩ 2, video_packet ⟨9000, 2⟩ 1]

/-- The error code `AVERROR_INVALIDDATA`, `FFERRTAG('I','N','D','A')`. -/
def AVERROR_INVALIDDATA : Int := -1094995529

/-- A packet of the video stream that the decoder rejects. -/
def corrupt_packet : ReadFrameEnv :=
  { av_read_frame := 0, stream_index := 0, avcodec_send_packet := AVERROR_INVALIDDATA,
    frames := [] }

/-- A pass in which only `av_write_trailer` fails (`AVERROR(EIO)`). -/
def trailer_fails : PassEnv :=
  { PassEnv.smooth short_clip [FlushEnv.smooth] with av_write_trailer := -5 }

/-- A pass over an input whose video stream delivers no frame, in which only
`sws_getContext` fails. -/
def scaler_missing : PassEnv :=
  { PassEnv.smooth [other_packet] [] with sws_getContext := false }

/-- A pass in which `avformat_alloc_output_context2` fails. -/
def output_context_fails : PassEnv :=
  { PassEnv.smooth short_clip [] with avformat_alloc_output_context2 := false }

/-- A pass in which the decoder rejects the second video packet. -/
def decoder_fails : PassEnv :=
  PassEnv.smooth [video_packet ⟨0, 0⟩ 1, corrupt_packet] []

/-- A run of `main` from the directory `getcwd` in which the file `clip.avi`
exists and both passes succeed on the clip of 2 seconds. -/
def MainEnv.smooth (getcwd : Option String) : MainEnv :=
  { fopen := fun filename => filename == "clip.avi"
    getcwd := getcwd
    first_pass := PassEnv.smooth clip_2s_30fps [FlushEnv.smooth]
    second_pass := PassEnv.smooth clip_2s_30fps [FlushEnv.smooth] }

/-! ## Reasoning about runs -/

@[simp] theorem Run.pure_trace {α : Type} (a : α) : (pure a : Run α).trace = [] := rfl
@[simp] theorem Run.pure_result {α : Type} (a : α) : (pure a : Run α).result = .ok a := rfl
@[simp] theorem Run.emit_trace (e : Event) : (emit e).trace = [e] := rfl
@[simp] theorem Run.emit_result (e : Event) : (emit e).result = .ok () := rfl
@[simp] theorem Run.raise_trace {α : Type} (m : String) : (raise m : Run α).trace = [] := rfl
@[simp] theorem Run.raise_result {α : Type} (m : String) :
    (raise m : Run α).result = .error m := rfl

theorem Run.bind_def {α β : Type} (r : Run α) (k : α → Run β) : (r >>= k) = Run.bind r k := rfl

@[simp] theorem Run.emit_bind {β : Type} (e : Event) (k : Unit → Run β) :
    (emit e >>= k) = ⟨e :: (k ()).trace, (k ()).result⟩ := rfl

@[simp] theorem Run.raise_bind {α β : Type} (m : String) (k : α → Run β) :
    (raise m >>= k) = raise m := rfl

@[simp] theorem Run.pure_bind {α β : Type} (a : α) (k : α → Run β) :
    ((pure a : Run α) >>= k) = k a := rfl

theorem Run.bind_ok {α β : Type} {r : Run α} {a : α} (k : α → Run β) (h : r.result = .ok a) :
    (r >>= k) = ⟨r.trace ++ (k a).trace, (k a).result⟩ := by
  simp only [Run.bind_def, Run.bind, h]

theorem Run.bind_error {α β : Type} {r : Run α} {e : String} (k : α → Run β)
    (h : r.result = .error e) : (r >>= k) = ⟨r.trace, .error e⟩ := by
  simp only [Run.bind_def, Run.bind, h]


@[simp] theorem decoded_frames_nil : decoded_frames [] = [] := rfl
@[simp] theorem submitted_frames_nil : submitted_frames [] = [] := rfl
@[simp] theorem decoded_frames_append (s t : List Event) :
    decoded_frames (s ++ t) = decoded_frames s ++ decoded_frames t := by
  simp [decoded_frames]
@[simp] theorem submitted_frames_append (s t : List Event) :
    submitted_frames (s ++ t) = submitted_frames s ++ submitted_frames t := by
  simp [submitted_frames]

@[simp] theorem decoded_frames_cons (e : Event) (t : List Event) :
    decoded_frames (e :: t) =
      (match e with
        | .avcodec_receive_frame f => [f]
        | _ => []) ++ decoded_frames t := by
  cases e <;> simp [decoded_frames, List.filterMap_cons]
@[simp] theorem submitted_frames_cons (e : Event) (t : List Event) :
    submitted_frames (e :: t) =
      (match e with
        | .avcodec_send_frame (some x) => [x]
        | _ => []) ++ submitted_frames t := by
  cases e with
  | avcodec_send_frame o => cases o <;> simp [submitted_frames, List.filterMap_cons]
  | _ => simp [submitted_frames, List.filterMap_cons]

theorem stamped_append (c : Int) (xs ys : List AVFrame) :
    stamped c (xs ++ ys) = stamped c xs ++ stamped (advance xs.length c) ys := by
  induction xs generalizing c with
  | nil => rfl
  | cons x xs ih => simp [stamped, advance, ih]

theorem advance_add (m n : Nat) (c : Int) : advance (m + n) c = advance n (advance m c) := by
  induction m generalizing c with
  | zero => simp [advance]
  | succ m ih => rw [Nat.add_right_comm]; simp [advance, ih]

theorem counts_pure (c : Int) : Counts c (pure c) :=
  ⟨by simp [stamped], by intro c' h; simp at h; subst h; simp [stamped, advance]⟩

theorem counts_raise (c : Int) (m : String) : Counts c (raise m) :=
  ⟨by simp [stamped], by intro c' h; simp at h⟩

theorem counts_bind {c : Int} {r : Run Int} {k : Int → Run Int} (hr : Counts c r)
    (hk : ∀ c', Counts c' (k c')) : Counts c (r >>= k) := by
  cases hres : r.result with
  | error e =>
    rw [Run.bind_error k hres]
    exact ⟨hr.pre, by intro c' h; simp at h⟩
  | ok a =>
    rw [Run.bind_ok k hres]
    obtain ⟨h1, h2⟩ := hr.ok a hres
    have hk' := hk a
    constructor
    · simp only [submitted_frames_append, decoded_frames_append, stamped_append, h1]
      rw [← h2]
      exact (List.prefix_append_right_inj _).2 hk'.pre
    · intro c' h
      obtain ⟨h3, h4⟩ := hk'.ok c' h
      simp only [submitted_frames_append, decoded_frames_append, stamped_append, h1,
        List.length_append, advance_add]
      rw [← h2]
      exact ⟨by rw [h3], h4⟩

theorem encode_frame_packets_quiet (l : List (Int × Int)) :
    decoded_frames (encode_frame_packets l).trace = [] ∧
    submitted_frames (encode_frame_packets l).trace = [] := by
  induction l with
  | nil => simp [encode_frame_packets]
  | cons p rest ih =>
    obtain ⟨response, write⟩ := p
    unfold encode_frame_packets
    split_ifs <;> simp [ih]

theorem allocate_frame_trace (env : AllocFrameEnv) : (allocate_frame env).trace = [] := by
  unfold allocate_frame
  cases env.av_frame_alloc <;> simp
  split_ifs <;> simp

theorem encode_frame_counts (env : EncodeFrameEnv) (f : AVFrame) (c : Int) :
    decoded_frames (encode_frame env f c).trace = [] ∧
    submitted_frames (encode_frame env f c).trace <+: [(f, c)] ∧
    ∀ c', (encode_frame env f c).result = .ok c' →
      submitted_frames (encode_frame env f c).trace = [(f, c)] ∧ c' = wrap64 (c + 1) := by
  unfold encode_frame
  cases env.av_packet_alloc
  · simp
  · simp only [Bool.not_true, Bool.false_eq_true, ↓reduceIte, Run.pure_bind, Run.emit_bind]
    split_ifs
    · simp
    · have hq := encode_frame_packets_quiet env.packets
      cases hres : (encode_frame_packets env.packets).result with
      | error e =>
        rw [Run.bind_error _ hres]
        simp [hq]
      | ok a =>
        rw [Run.bind_ok _ hres]
        simp [hq]

theorem receive_frames_counts (l : List ReceiveFrameEnv) (c : Int) :
    Counts c (receive_frames l c) := by
  induction l generalizing c with
  | nil => exact counts_pure c
  | cons r rest ih =>
    unfold receive_frames
    by_cases h1 : r.avcodec_receive_frame = AVERROR_EAGAIN ∨ r.avcodec_receive_frame = AVERROR_EOF
    · rw [if_pos h1]; exact counts_pure c
    rw [if_neg h1]
    by_cases h2 : r.avcodec_receive_frame < 0
    · rw [if_pos h2]; exact counts_raise c _
    rw [if_neg h2]
    cases hclone : r.av_frame_clone
    · simp only [Run.emit_bind, Bool.not_false, ↓reduceIte, Run.raise_bind]
      exact ⟨by simp, by intro c' h; simp at h⟩
    · simp only [Run.emit_bind, Bool.not_true, Bool.false_eq_true, ↓reduceIte, Run.pure_bind]
      obtain ⟨e1, e2, e3⟩ := encode_frame_counts r.encode r.frame c
      cases hres : (encode_frame r.encode r.frame c).result with
      | error e =>
        rw [Run.bind_error _ hres]
        constructor
        · simp only [decoded_frames_cons, submitted_frames_cons, e1, List.nil_append,
            List.append_nil]
          exact e2
        · intro c' h; simp at h
      | ok c1 =>
        rw [Run.bind_ok _ hres]
        obtain ⟨e4, e5⟩ := e3 c1 hres
        subst e5
        have hk := ih (wrap64 (c + 1))
        constructor
        · simp only [decoded_frames_cons, submitted_frames_cons, decoded_frames_append,
            submitted_frames_append, e1, e4, List.nil_append, List.singleton_append]
          simp only [stamped]
          exact (List.prefix_cons_inj _).2 hk.pre
        · intro c' h
          obtain ⟨h3, h4⟩ := hk.ok c' h
          simp only [decoded_frames_cons, submitted_frames_cons, decoded_frames_append,
            submitted_frames_append, e1, e4, List.nil_append, List.singleton_append,
            List.length_cons]
          simp only [stamped, advance]
          exact ⟨by rw [h3], h4⟩

theorem read_frames_counts (l : List ReadFrameEnv) (v c : Int) :
    Counts c (read_frames l v c) := by
  induction l generalizing c with
  | nil => exact counts_pure c
  | cons p rest ih =>
    unfold read_frames
    by_cases h1 : p.av_read_frame ≥ 0
    · rw [if_pos h1]
      by_cases h2 : p.stream_index = v
      · by_cases h3 : p.avcodec_send_packet < 0
        · simp only [h2, h3, ↓reduceIte, Run.raise_bind]
          exact counts_raise c _
        · simp only [h2, h3, ↓reduceIte, Run.pure_bind]
          exact counts_bind (receive_frames_counts _ c) (fun c' => ih c')
      · simp only [h2, ↓reduceIte, Run.pure_bind]
        exact ih c
    · rw [if_neg h1]; exact counts_pure c

theorem stamped_eq_zip (fs : List AVFrame) (c : Nat) (h : c + fs.length ≤ 2 ^ 63) :
    stamped c fs = fs.zip ((List.range' c fs.length).map Int.ofNat) := by
  induction fs generalizing c with
  | nil => simp [stamped]
  | cons f fs ih =>
    simp only [List.length_cons] at h
    cases fs with
    | nil => simp [stamped, List.range']
    | cons g gs =>
      simp only [List.length_cons] at h ih
      have hw : wrap64 ((c : Int) + 1) = ((c + 1 : Nat) : Int) := by
        unfold wrap64
        push_cast
        omega
      rw [stamped, hw, ih (c + 1) (by omega)]
      simp [List.range']


theorem Run.bind_assoc {α β γ : Type} (r : Run α) (f : α → Run β) (g : β → Run γ) :
    (r >>= f >>= g) = (r >>= fun a => f a >>= g) := by
  simp only [Run.bind_def, Run.bind]
  cases hr : r.result with
  | error e => rfl
  | ok a =>
    simp only []
    cases hf : (f a).result <;> simp

theorem Run.ite_bind {α β : Type} (c : Prop) [Decidable c] (a b : Run α) (k : α → Run β) :
    ((if c then a else b) >>= k) = if c then a >>= k else b >>= k := by
  split <;> rfl

theorem encode_pass_eq (env : PassEnv) (i o : String) (p : Bool) :
    encode_pass env i o p =
      (pass_setup env i o p >>= fun _ =>
        read_frames env.reads env.av_find_best_stream 0 >>= fun _ => pass_finish env) := by
  simp only [encode_pass, pass_setup, pass_finish, Run.bind_assoc, Run.ite_bind, Run.raise_bind,
    Run.pure_bind]

theorem all_pure {α : Type} (p : Event → Bool) (a : α) : Run.All p (pure a : Run α) := by
  intro e he; simp at he

theorem all_raise {α : Type} (p : Event → Bool) (m : String) :
    Run.All p (raise m : Run α) := by
  intro e he; simp at he

theorem all_emit {p : Event → Bool} {e : Event} (h : p e = true) : Run.All p (emit e) := by
  intro e' he; simp at he; subst he; exact h

theorem all_bind {α β : Type} {p : Event → Bool} {r : Run α} {k : α → Run β}
    (hr : Run.All p r) (hk : ∀ a, Run.All p (k a)) : Run.All p (r >>= k) := by
  intro e he
  cases hres : r.result with
  | error m =>
    rw [Run.bind_error k hres] at he
    exact hr e he
  | ok a =>
    rw [Run.bind_ok k hres] at he
    rcases List.mem_append.1 he with h | h
    · exact hr e h
    · exact hk a e h

theorem all_ite {α : Type} {p : Event → Bool} {c : Prop} [Decidable c] {a b : Run α}
    (ha : Run.All p a) (hb : Run.All p b) : Run.All p (if c then a else b) := by
  split <;> assumption

theorem quiet_of_all (t : List Event) (h : ∀ e ∈ t, Event.no_frame e = true) :
    decoded_frames t = [] ∧ submitted_frames t = [] := by
  induction t with
  | nil => simp
  | cons e t ih =>
    have he := h e (List.mem_cons_self _ _)
    have ht := ih (fun e' he' => h e' (List.mem_cons_of_mem _ he'))
    cases e with
    | avcodec_receive_frame f => simp [Event.no_frame] at he
    | avcodec_send_frame o =>
      cases o with
      | none => simpa using ht
      | some x => simp [Event.no_frame] at he
    | _ => simpa using ht

theorem allocate_frame_all (p : Event → Bool) (env : AllocFrameEnv) :
    Run.All p (allocate_frame env) := by
  intro e he
  rw [allocate_frame_trace] at he
  simp at he

theorem pass_setup_no_frame (env : PassEnv) (i o : String) (b : Bool) :
    Run.All Event.no_frame (pass_setup env i o b) := by
  unfold pass_setup
  repeat' first
    | exact all_pure _ _
    | exact all_raise _ _
    | exact allocate_frame_all _ _
    | exact all_emit rfl
    | apply all_bind
    | apply all_ite
    | intro _

theorem flush_packets_no_frame (l : List FlushEnv) :
    Run.All Event.no_frame (flush_packets l) := by
  induction l with
  | nil => exact all_pure _ _
  | cons f rest ih =>
    unfold flush_packets
    cases f.av_packet_alloc
    · simp only [Bool.not_false, ↓reduceIte, Run.raise_bind]; exact all_raise _ _
    · simp only [Bool.not_true, Bool.false_eq_true, ↓reduceIte, Run.pure_bind]
      repeat' first
        | exact all_pure _ _
        | exact all_raise _ _
        | exact ih
        | exact all_emit rfl
        | apply all_bind
        | apply all_ite
        | intro _

theorem pass_finish_no_frame (env : PassEnv) :
    Run.All Event.no_frame (pass_finish env) := by
  unfold pass_finish
  repeat' first
    | exact all_pure _ _
    | exact all_raise _ _
    | exact flush_packets_no_frame _
    | exact all_emit rfl
    | apply all_bind
    | apply all_ite
    | intro _

theorem stamped_zero (fs : List AVFrame) (h : fs.length ≤ 2 ^ 63) : stamped 0 fs = numbered fs := by
  have := stamped_eq_zip fs 0 (by omega)
  simpa [numbered, List.range_eq_range'] using this

theorem encode_pass_counts (env : PassEnv) (i o : String) (p : Bool) :
    submitted_frames (encode_pass env i o p).trace <+:
      stamped 0 (decoded_frames (encode_pass env i o p).trace) ∧
    ((encode_pass env i o p).result = .ok () →
      submitted_frames (encode_pass env i o p).trace =
        stamped 0 (decoded_frames (encode_pass env i o p).trace)) := by
  rw [encode_pass_eq]
  obtain ⟨s1, s2⟩ := quiet_of_all _ (pass_setup_no_frame env i o p)
  obtain ⟨f1, f2⟩ := quiet_of_all _ (pass_finish_no_frame env)
  have hc := read_frames_counts env.reads env.av_find_best_stream 0
  cases hs : (pass_setup env i o p).result with
  | error e =>
    rw [Run.bind_error _ hs]
    simp [s1, s2, stamped]
  | ok u =>
    rw [Run.bind_ok _ hs]
    cases hr : (read_frames env.reads env.av_find_best_stream 0).result with
    | error e =>
      rw [Run.bind_error _ hr]
      simp only [decoded_frames_append, submitted_frames_append, s1, s2, List.nil_append]
      exact ⟨hc.pre, by intro h; simp at h⟩
    | ok c =>
      rw [Run.bind_ok _ hr]
      obtain ⟨h1, -⟩ := hc.ok c hr
      simp only [decoded_frames_append, submitted_frames_append, s1, s2, f1, f2,
        List.nil_append, List.append_nil]
      exact ⟨by rw [h1], fun _ => h1⟩


theorem numbered_fst (fs : List AVFrame) : (numbered fs).map Prod.fst = fs := by
  unfold numbered
  rw [List.map_fst_zip]
  simp

theorem numbered_snd (fs : List AVFrame) :
    (numbered fs).map Prod.snd = (List.range fs.length).map Int.ofNat := by
  unfold numbered
  rw [List.map_snd_zip]
  simp

theorem all_mono {α : Type} {p q : Event → Bool} {r : Run α}
    (h : ∀ e, p e = true → q e = true) (hr : Run.All p r) : Run.All q r :=
  fun e he => h e (hr e he)

theorem encode_frame_packets_streaming (l : List (Int × Int)) :
    Run.All Event.streaming (encode_frame_packets l) := by
  induction l with
  | nil => exact all_pure _ _
  | cons x rest ih =>
    obtain ⟨response, write⟩ := x
    unfold encode_frame_packets
    repeat' first
      | exact all_pure _ _
      | exact all_raise _ _
      | exact ih
      | exact all_emit rfl
      | apply all_bind
      | apply all_ite
      | intro _

theorem encode_frame_streaming (env : EncodeFrameEnv) (f : AVFrame) (c : Int) :
    Run.All Event.streaming (encode_frame env f c) := by
  unfold encode_frame
  repeat' first
    | exact all_pure _ _
    | exact all_raise _ _
    | exact encode_frame_packets_streaming _
    | exact all_emit rfl
    | apply all_bind
    | apply all_ite
    | intro _

theorem receive_frames_streaming (l : List ReceiveFrameEnv) (c : Int) :
    Run.All Event.streaming (receive_frames l c) := by
  induction l generalizing c with
  | nil => exact all_pure _ _
  | cons x rest ih =>
    unfold receive_frames
    repeat' first
      | exact all_pure _ _
      | exact all_raise _ _
      | exact ih _
      | exact encode_frame_streaming _ _ _
      | exact all_emit rfl
      | apply all_bind
      | apply all_ite
      | intro _

theorem read_frames_streaming (l : List ReadFrameEnv) (v c : Int) :
    Run.All Event.streaming (read_frames l v c) := by
  induction l generalizing c with
  | nil => exact all_pure _ _
  | cons x rest ih =>
    unfold read_frames
    repeat' first
      | exact all_pure _ _
      | exact all_raise _ _
      | exact ih _
      | exact receive_frames_streaming _ _
      | exact all_emit rfl
      | apply all_bind
      | apply all_ite
      | intro _

theorem flush_packets_streaming (l : List FlushEnv) :
    Run.All Event.streaming (flush_packets l) := by
  induction l with
  | nil => exact all_pure _ _
  | cons f rest ih =>
    unfold flush_packets
    repeat' first
      | exact all_pure _ _
      | exact all_raise _ _
      | exact ih
      | exact all_emit rfl
      | apply all_bind
      | apply all_ite
      | intro _

theorem streaming_opens_only (o : String) (e : Event) (h : Event.streaming e = true) :
    Event.opens_only o e = true := by
  cases e <;> simp_all [Event.streaming, Event.opens_only]

theorem streaming_configures_only (ctx : AVCodecContext) (options : AVDictionary) (e : Event)
    (h : Event.streaming e = true) : Event.configures_only ctx options e = true := by
  cases e <;> simp_all [Event.streaming, Event.configures_only]

theorem encode_pass_opens_only (env : PassEnv) (i o : String) (b : Bool) :
    Run.All (Event.opens_only o) (encode_pass env i o b) := by
  unfold encode_pass
  repeat' first
    | exact all_pure _ _
    | exact all_raise _ _
    | exact allocate_frame_all _ _
    | exact all_mono (streaming_opens_only o) (read_frames_streaming _ _ _)
    | exact all_mono (streaming_opens_only o) (flush_packets_streaming _)
    | exact all_emit (by simp [Event.opens_only])
    | apply all_bind
    | apply all_ite
    | intro _

theorem encode_pass_configures_only (env : PassEnv) (i o : String) (b : Bool) :
    Run.All (Event.configures_only (output_codec_context env) (codec_options b))
      (encode_pass env i o b) := by
  unfold encode_pass
  repeat' first
    | exact all_pure _ _
    | exact all_raise _ _
    | exact allocate_frame_all _ _
    | exact all_mono (streaming_configures_only _ _) (read_frames_streaming _ _ _)
    | exact all_mono (streaming_configures_only _ _) (flush_packets_streaming _)
    | exact all_emit (by simp [Event.configures_only])
    | apply all_bind
    | apply all_ite
    | intro _

theorem mem_encoders_opened (t : List Event) (ctx : AVCodecContext) (options : AVDictionary) :
    (ctx, options) ∈ encoders_opened t ↔ Event.avcodec_open2_output ctx options ∈ t := by
  unfold encoders_opened
  rw [List.mem_filterMap]
  constructor
  · rintro ⟨e, he, h⟩
    cases e <;> simp at h
    obtain ⟨rfl, rfl⟩ := h
    exact he
  · intro h
    exact ⟨_, h, rfl⟩

theorem find_last_of_eq_none (s : List Char) (c : Char) :
    find_last_of s c = none ↔ c ∉ s := by
  induction s with
  | nil => simp [find_last_of]
  | cons x xs ih =>
    unfold find_last_of
    cases h : find_last_of xs c with
    | some i =>
      have : c ∈ xs := by
        by_contra hc
        rw [ih.2 hc] at h
        cases h
      simp [this]
    | none =>
      have hc : c ∉ xs := ih.1 h
      by_cases hx : x = c
      · simp [hx]
      · simp [hx, hc, Ne.symm hx]

theorem find_last_of_eq_some (s : List Char) (c : Char) (i : Nat)
    (h : find_last_of s c = some i) : ∃ q, s = s.take i ++ c :: q ∧ c ∉ q := by
  induction s generalizing i with
  | nil => simp [find_last_of] at h
  | cons x xs ih =>
    unfold find_last_of at h
    cases hxs : find_last_of xs c with
    | some j =>
      rw [hxs] at h
      simp only [Option.some.injEq] at h
      subst h
      obtain ⟨q, hq, hc⟩ := ih j hxs
      exact ⟨q, by simp only [List.take_succ_cons, List.cons_append]; rw [← hq], hc⟩
    | none =>
      rw [hxs] at h
      by_cases hx : x = c
      · simp only [hx, ↓reduceIte, Option.some.injEq] at h
        subst h
        exact ⟨xs, by simp [hx], (find_last_of_eq_none xs c).1 hxs⟩
      · simp [hx] at h

theorem find_last_of_append (p q : List Char) (c : Char) (hq : c ∉ q) :
    find_last_of (p ++ c :: q) c = some p.length := by
  induction p with
  | nil =>
    simp [find_last_of, (find_last_of_eq_none q c).2 hq]
  | cons x xs ih =>
    simp only [List.cons_append, List.length_cons]
    unfold find_last_of
    rw [ih]

theorem encoders_opened_eq (env : PassEnv) (i o : String) (b : Bool) (ctx : AVCodecContext)
    (options : AVDictionary) (h : (ctx, options) ∈ encoders_opened (encode_pass env i o b).trace) :
    ctx = output_codec_context env ∧ options = codec_options b := by
  have hall := encode_pass_configures_only env i o b _ ((mem_encoders_opened _ _ _).1 h)
  simpa [Event.configures_only] using hall

/-! ## The claims -/

/-- C1: in every pass the frame counter starts at 0 and the frames the decoder
delivers are submitted to the encoder in order, each once, the i-th with
timestamp i whatever timestamp it carries.  At any exit the submitted frames are
the first decoded frames numbered from 0; when the pass returns without error
they are all n decoded frames, with timestamps 0, 1, ..., n-1 in that order
(n within the range of the `int64_t` counter). -/
theorem encode_pass_numbers_frames (env : PassEnv) (input_filename output_filename : String)
    (is_first_pass : Bool)
    (hn : (decoded_frames
      (encode_pass env input_filename output_filename is_first_pass).trace).length ≤ 2 ^ 63) :
    submitted_frames (encode_pass env input_filename output_filename is_first_pass).trace <+:
      numbered (decoded_frames
        (encode_pass env input_filename output_filename is_first_pass).trace) ∧
    ((encode_pass env input_filename output_filename is_first_pass).result = .ok () →
      (submitted_frames
          (encode_pass env input_filename output_filename is_first_pass).trace).map Prod.fst =
        decoded_frames (encode_pass env input_filename output_filename is_first_pass).trace ∧
      (submitted_frames
          (encode_pass env input_filename output_filename is_first_pass).trace).map Prod.snd =
        (List.range (decoded_frames
          (encode_pass env input_filename output_filename is_first_pass).trace).length).map
            Int.ofNat) := by
  obtain ⟨h1, h2⟩ := encode_pass_counts env input_filename output_filename is_first_pass
  rw [stamped_zero _ hn] at h1 h2
  refine ⟨h1, fun hok => ?_⟩
  rw [h2 hok]
  exact ⟨numbered_fst _, numbered_snd _⟩

/-- Witness of C1: a pass over three video frames carrying the timestamps 9000,
-4 and 9000 submits them with the timestamps 0, 1, 2. -/
theorem encode_pass_numbers_frames_witness :
    (decoded_frames (encode_pass (PassEnv.smooth short_clip [FlushEnv.smooth])
      "in.avi" "in.mp4" false).trace).length ≤ 2 ^ 63 ∧
    (encode_pass (PassEnv.smooth short_clip [FlushEnv.smooth])
      "in.avi" "in.mp4" false).result = .ok () ∧
    (submitted_frames (encode_pass (PassEnv.smooth short_clip [FlushEnv.smooth])
      "in.avi" "in.mp4" false).trace).map Prod.snd = [0, 1, 2] ∧
    (submitted_frames (encode_pass (PassEnv.smooth short_clip [FlushEnv.smooth])
      "in.avi" "in.mp4" false).trace).map Prod.fst = [⟨9000, 0⟩, ⟨-4, 1⟩, ⟨9000, 2⟩] :=
  ⟨by decide, by decide,
    ((encode_pass_numbers_frames (PassEnv.smooth short_clip [FlushEnv.smooth])
      "in.avi" "in.mp4" false (by decide)).2 (by decide)).2.trans (by decide),
    ((encode_pass_numbers_frames (PassEnv.smooth short_clip [FlushEnv.smooth])
      "in.avi" "in.mp4" false (by decide)).2 (by decide)).1.trans (by decide)⟩

/-- C9, as the code has it: the final pass over the 60 decoded frames of a clip of
2 seconds at 30 frames per second returns without error and submits 60 frames to
the encoder, not 120. -/
theorem final_pass_of_2s_30fps_clip_submits_60 :
    (decoded_frames (encode_pass (PassEnv.smooth clip_2s_30fps [FlushEnv.smooth])
      "clip.avi" "clip.mp4" false).trace).length = 60 ∧
    (encode_pass (PassEnv.smooth clip_2s_30fps [FlushEnv.smooth])
      "clip.avi" "clip.mp4" false).result = .ok () ∧
    (submitted_frames (encode_pass (PassEnv.smooth clip_2s_30fps [FlushEnv.smooth])
      "clip.avi" "clip.mp4" false).trace).length = 60 ∧
    (submitted_frames (encode_pass (PassEnv.smooth clip_2s_30fps [FlushEnv.smooth])
      "clip.avi" "clip.mp4" false).trace).length ≠ 120 := by
  decide

/-- C9 amended: when the input decodes to 60 frames and no step fails, the final
pass submits exactly 60 frames to the encoder, one for each decoded frame, with
the timestamps 0, ..., 59 in units of 1/60 second. -/
theorem final_pass_submits_one_frame_per_decoded_frame (env : PassEnv)
    (input_filename output_filename : String)
    (h60 : (decoded_frames
      (encode_pass env input_filename output_filename false).trace).length = 60)
    (hok : (encode_pass env input_filename output_filename false).result = .ok ()) :
    (submitted_frames (encode_pass env input_filename output_filename false).trace).length = 60 ∧
    (submitted_frames (encode_pass env input_filename output_filename false).trace).map Prod.snd =
      (List.range 60).map Int.ofNat ∧
    (output_codec_context env).time_base = ⟨1, 60⟩ := by
  obtain ⟨-, h2⟩ := encode_pass_counts env input_filename output_filename false
  rw [stamped_zero _ (by rw [h60]; norm_num)] at h2
  rw [h2 hok, numbered_snd, h60]
  refine ⟨?_, rfl, rfl⟩
  simp [numbered, h60]

/-- Witness of C9 amended, on the clip of 2 seconds at 30 frames per second. -/
theorem final_pass_submits_one_frame_per_decoded_frame_witness :
    (submitted_frames (encode_pass (PassEnv.smooth clip_2s_30fps [FlushEnv.smooth])
      "clip.avi" "clip.mp4" false).trace).length = 60 ∧
    (submitted_frames (encode_pass (PassEnv.smooth clip_2s_30fps [FlushEnv.smooth])
      "clip.avi" "clip.mp4" false).trace).map Prod.snd = (List.range 60).map Int.ofNat ∧
    (output_codec_context (PassEnv.smooth clip_2s_30fps [FlushEnv.smooth])).time_base = ⟨1, 60⟩ :=
  final_pass_submits_one_frame_per_decoded_frame
    (PassEnv.smooth clip_2s_30fps [FlushEnv.smooth]) "clip.avi" "clip.mp4" (by decide) (by decide)

/-- C2: `encode` runs the first pass on the input with `/dev/null` as output and,
only when that pass returned, the second pass on the same input with the real
output path.  When the first pass raises an error the run ends there: the error
reaches the caller, the events are those of the first pass alone, and no file
other than `/dev/null` was opened for writing. -/
theorem encode_second_pass_only_after_first (first_pass second_pass : PassEnv)
    (input_filename output_filename : String) :
    ((encode_pass first_pass input_filename "/dev/null" true).result = .ok () →
      (encode first_pass second_pass input_filename output_filename).trace =
        (encode_pass first_pass input_filename "/dev/null" true).trace ++
          (encode_pass second_pass input_filename output_filename false).trace ∧
      (encode first_pass second_pass input_filename output_filename).result =
        (encode_pass second_pass input_filename output_filename false).result) ∧
    (∀ what, (encode_pass first_pass input_filename "/dev/null" true).result = .error what →
      (encode first_pass second_pass input_filename output_filename).result = .error what ∧
      (encode first_pass second_pass input_filename output_filename).trace =
        (encode_pass first_pass input_filename "/dev/null" true).trace ∧
      (∀ f, Event.avio_open f ∈
        (encode first_pass second_pass input_filename output_filename).trace →
          f = "/dev/null") ∧
      ∀ g f, Event.avformat_alloc_output_context2 g f ∈
        (encode first_pass second_pass input_filename output_filename).trace →
          f = "/dev/null") := by
  constructor
  · intro h
    unfold encode
    rw [Run.bind_ok _ h]
    exact ⟨rfl, rfl⟩
  · intro what h
    have hall := encode_pass_opens_only first_pass input_filename "/dev/null" true
    unfold encode
    rw [Run.bind_error _ h]
    refine ⟨rfl, rfl, fun f hf => ?_, fun g f hf => ?_⟩
    · simpa [Event.opens_only] using hall _ hf
    · simpa [Event.opens_only] using hall _ hf

/-- Witness of C2: the decoder rejects a packet in the first pass; `encode` raises
that error and `clip.mp4` is never opened, although the second pass would succeed. -/
theorem encode_second_pass_only_after_first_witness :
    (encode_pass decoder_fails "clip.avi" "/dev/null" true).result =
      .error "Error while sending packet to decoder." ∧
    (encode decoder_fails (PassEnv.smooth short_clip []) "clip.avi" "clip.mp4").result =
      .error "Error while sending packet to decoder." ∧
    Event.avio_open "/dev/null" ∈
      (encode decoder_fails (PassEnv.smooth short_clip []) "clip.avi" "clip.mp4").trace ∧
    Event.avio_open "clip.mp4" ∉
      (encode decoder_fails (PassEnv.smooth short_clip []) "clip.avi" "clip.mp4").trace :=
  ⟨by decide,
    ((encode_second_pass_only_after_first decoder_fails (PassEnv.smooth short_clip [])
      "clip.avi" "clip.mp4").2 "Error while sending packet to decoder." (by decide)).1,
    by decide,
    fun h => absurd
      (((encode_second_pass_only_after_first decoder_fails (PassEnv.smooth short_clip [])
        "clip.avi" "clip.mp4").2 "Error while sending packet to decoder."
          (by decide)).2.2.1 _ h) (by decide)⟩

/-- C3, where the code departs from it: a pass in which `av_write_trailer` fails
returns without error, and so does a pass in which `sws_getContext` fails when
no frame is decoded; no value of `av_write_trailer` changes anything a pass does. -/
theorem encode_pass_hides_trailer_and_scaler_failure :
    trailer_fails.av_write_trailer < 0 ∧
    (encode_pass trailer_fails "clip.avi" "clip.mp4" false).result = .ok () ∧
    scaler_missing.sws_getContext = false ∧
    (encode_pass scaler_missing "clip.avi" "clip.mp4" false).result = .ok () ∧
    ∀ (env : PassEnv) (code : Int) (input_filename output_filename : String) (b : Bool),
      encode_pass { env with av_write_trailer := code } input_filename output_filename b =
        encode_pass env input_filename output_filename b :=
  ⟨by decide, by decide, rfl, by decide, fun _ _ _ _ _ => rfl⟩

/-- C4, where the code departs from it: when `avformat_alloc_output_context2`
fails the pass raises with the input container still open, and when the decoder
rejects a packet the pass raises with all six resources still held; a pass that
returns holds none. -/
theorem encode_pass_leaks_on_error_paths :
    (encode_pass output_context_fails "clip.avi" "clip.mp4" false).result =
      .error "Could not create output context." ∧
    leaked (encode_pass output_context_fails "clip.avi" "clip.mp4" false).trace =
      [.input_format_context] ∧
    (encode_pass decoder_fails "clip.avi" "clip.mp4" false).result =
      .error "Error while sending packet to decoder." ∧
    leaked (encode_pass decoder_fails "clip.avi" "clip.mp4" false).trace =
      [.input_format_context, .input_codec_context, .output_format_context,
        .output_codec_context, .output_io, .sws_ctx] ∧
    leaked (encode_pass (PassEnv.smooth short_clip [FlushEnv.smooth])
      "clip.avi" "clip.mp4" false).trace = [] := by
  decide

/-- C8, where the code departs from it: the packet written in the flush stage is
written without the writer mutex; of the four packets of the sample pass, the
three of the streaming stage are written under the mutex and the flushed one is
not. -/
theorem flush_stage_writes_without_lock :
    writes (encode_pass (PassEnv.smooth [] [FlushEnv.smooth]) "clip.avi" "clip.mp4" false).trace
      = 1 ∧
    unlocked_writes false
      (encode_pass (PassEnv.smooth [] [FlushEnv.smooth]) "clip.avi" "clip.mp4" false).trace = 1 ∧
    writes (encode_pass (PassEnv.smooth short_clip [FlushEnv.smooth])
      "clip.avi" "clip.mp4" false).trace = 4 ∧
    unlocked_writes false (encode_pass (PassEnv.smooth short_clip [FlushEnv.smooth])
      "clip.avi" "clip.mp4" false).trace = 1 ∧
    unlocked_writes false (encode_pass (PassEnv.smooth short_clip [])
      "clip.avi" "clip.mp4" false).trace = 0 := by
  decide

/-- C6, where the code departs from it: the last dot of the whole path is taken,
also when it lies in a directory name, so `./clip` gives `.mp4` and
`videos.v1/clip` gives `videos.mp4` instead of the input followed by `.mp4`. -/
theorem changeExtensionToMp4_dot_in_directory :
    changeExtensionToMp4 "./clip" = ".mp4" ∧
    changeExtensionToMp4 "./clip" ≠ "./clip.mp4" ∧
    changeExtensionToMp4 "videos.v1/clip" = "videos.mp4" ∧
    changeExtensionToMp4 "videos.v1/clip" ≠ "videos.v1/clip.mp4" := by
  decide

/-- C7: the encoder configurations that the first and the second pass hand to
`avcodec_open2`, for inputs of the same dimensions, have the same resolution,
pixel format, time base (1/60), bit rate (500000), GOP size (60), maximum number
of B-frames (3), thread count and thread type, and the same preset, crf, tune,
profile and b:v options; their options differ in the entry `pass` only, which is
`1` in the first pass and `2` in the second. -/
theorem passes_share_encoder_configuration (env1 env2 : PassEnv)
    (input1 output1 input2 output2 : String) (ctx1 ctx2 : AVCodecContext)
    (options1 options2 : AVDictionary)
    (hwidth : env1.input_width = env2.input_width)
    (hheight : env1.input_height = env2.input_height)
    (h1 : (ctx1, options1) ∈ encoders_opened (encode_pass env1 input1 output1 true).trace)
    (h2 : (ctx2, options2) ∈ encoders_opened (encode_pass env2 input2 output2 false).trace) :
    ctx1.width = ctx2.width ∧ ctx1.height = ctx2.height ∧
    ctx1.pix_fmt = ctx2.pix_fmt ∧
    ctx1.time_base = ⟨1, 60⟩ ∧ ctx2.time_base = ⟨1, 60⟩ ∧
    ctx1.bit_rate = 500000 ∧ ctx2.bit_rate = 500000 ∧
    ctx1.gop_size = 60 ∧ ctx2.gop_size = 60 ∧
    ctx1.max_b_frames = 3 ∧ ctx2.max_b_frames = 3 ∧
    ctx1.thread_count = ctx2.thread_count ∧ ctx1.thread_type = ctx2.thread_type ∧
    ["preset", "crf", "tune", "profile", "b:v"].map (av_dict_get options1) =
      [some "veryfast", some "28", some "film", some "high", some "500k"] ∧
    ["preset", "crf", "tune", "profile", "b:v"].map (av_dict_get options2) =
      [some "veryfast", some "28", some "film", some "high", some "500k"] ∧
    entries_except "pass" options1 = entries_except "pass" options2 ∧
    av_dict_get options1 "pass" = some "1" ∧ av_dict_get options2 "pass" = some "2" := by
  obtain ⟨rfl, rfl⟩ := encoders_opened_eq _ _ _ _ _ _ h1
  obtain ⟨rfl, rfl⟩ := encoders_opened_eq _ _ _ _ _ _ h2
  refine ⟨hwidth, hheight, rfl, rfl, rfl, rfl, rfl, rfl, rfl, rfl, rfl, rfl, rfl, ?_, ?_, ?_, ?_, ?_⟩
    <;> decide

/-- Witness of C7: two passes over 640x480 inputs, the first to `/dev/null`. -/
theorem passes_share_encoder_configuration_witness :
    (output_codec_context (PassEnv.smooth short_clip [])).width = 640 ∧
    entries_except "pass" (codec_options true) = entries_except "pass" (codec_options false) ∧
    av_dict_get (codec_options true) "pass" = some "1" ∧
    av_dict_get (codec_options false) "pass" = some "2" :=
  have h := passes_share_encoder_configuration (PassEnv.smooth short_clip [])
    (PassEnv.smooth clip_2s_30fps [FlushEnv.smooth]) "clip.avi" "/dev/null" "clip.avi" "clip.mp4"
    (output_codec_context (PassEnv.smooth short_clip [])) 
    (output_codec_context (PassEnv.smooth clip_2s_30fps [FlushEnv.smooth])) 
    (codec_options true) (codec_options false) (by decide) (by decide) (by decide) (by decide)
  ⟨by decide, h.2.2.2.2.2.2.2.2.2.2.2.2.2.2.2.1, h.2.2.2.2.2.2.2.2.2.2.2.2.2.2.2.2.1,
    h.2.2.2.2.2.2.2.2.2.2.2.2.2.2.2.2.2⟩

/-- C5, as the code has it: the argument is given, the input file exists and
both passes complete without error, yet `main` returns 1 because `getcwd` fails
when the absolute output path is built. -/
theorem main_returns_1_when_getcwd_fails :
    2 ≤ ["x264", "clip.avi"].length ∧
    fileExists (MainEnv.smooth none) "clip.avi" = true ∧
    (encode (MainEnv.smooth none).first_pass (MainEnv.smooth none).second_pass
      "clip.avi" (changeExtensionToMp4 "clip.avi")).result = .ok () ∧
    (main (MainEnv.smooth none) ["x264", "clip.avi"]).exit_code = 1 ∧
    (main (MainEnv.smooth none) ["x264", "clip.avi"]).exit_code ≠ 0 := by
  decide

/-- C5 amended: `main` returns 0 exactly when an input-file argument is given,
the input file exists, the two-pass pipeline completes without error and the
working directory can be determined; in that case standard output holds exactly
the completion line and the line with the absolute output path; in every other
case `main` returns 1. -/
theorem main_exit_code (env : MainEnv) (argv : List String) :
    ((main env argv).exit_code = 0 ↔
      2 ≤ argv.length ∧ fileExists env (argv.getD 1 "") = true ∧
      (encode env.first_pass env.second_pass (argv.getD 1 "")
        (changeExtensionToMp4 (argv.getD 1 ""))).result = .ok () ∧
      env.getcwd.isSome = true) ∧
    ((main env argv).exit_code = 0 →
      ∃ cwd, env.getcwd = some cwd ∧
        (main env argv).stdout =
          "Encoding completed successfully.\n" ++ "Output file saved to: " ++
            (cwd ++ "/" ++ changeExtensionToMp4 (argv.getD 1 "")) ++ "\n") ∧
    ((main env argv).exit_code ≠ 0 → (main env argv).exit_code = 1) := by
  unfold main
  by_cases hargc : argv.length < 2
  · simp only [hargc, ↓reduceIte]
    refine ⟨⟨fun h => by simp at h, fun h => by omega⟩, fun h => by simp at h, by simp⟩
  · simp only [hargc, ↓reduceIte]
    cases hexists : fileExists env (argv.getD 1 "")
    · simp
    · simp only [Bool.not_true, Bool.false_eq_true, ↓reduceIte]
      cases hrun : (encode env.first_pass env.second_pass (argv.getD 1 "")
          (changeExtensionToMp4 (argv.getD 1 ""))).result with
      | error what => simp
      | ok u =>
        cases hcwd : env.getcwd with
        | none => simp [getAbsolutePath, hcwd]
        | some cwd =>
          simp [getAbsolutePath, hcwd]
          omega

/-- Witness of C5 amended: a run from `/home/user` on `clip.avi` returns 0 and
prints the two lines. -/
theorem main_exit_code_witness :
    (main (MainEnv.smooth (some "/home/user")) ["x264", "clip.avi"]).exit_code = 0 ∧
    (main (MainEnv.smooth (some "/home/user")) ["x264", "clip.avi"]).stdout =
      "Encoding completed successfully.\nOutput file saved to: /home/user/clip.mp4\n" :=
  ⟨((main_exit_code (MainEnv.smooth (some "/home/user")) ["x264", "clip.avi"]).1).2
      (by decide), by decide⟩

/-- C10: for every string, `changeExtensionToMp4` returns its argument unchanged
exactly when the argument ends with `.mp4`; so the output path `main` derives is
the input path for inputs named `*.mp4` and differs from it for every other
input. -/
theorem changeExtensionToMp4_fixed_iff (s : String) :
    changeExtensionToMp4 s = s ↔ ".mp4".data <:+ s.data := by
  simp only [changeExtensionToMp4]
  constructor
  · intro h
    cases hf : find_last_of s.data '.' with
    | none =>
      rw [hf] at h
      have := congrArg String.data h
      simp at this
    | some i =>
      rw [hf] at h
      have := congrArg String.data h
      simp only [replace_to_end] at this
      exact ⟨_, this⟩
  · rintro ⟨p, hp⟩
    have hdata : s.data = p ++ '.' :: ['m', 'p', '4'] := hp.symm
    have hf : find_last_of s.data '.' = some p.length := by
      rw [hdata]
      exact find_last_of_append p _ '.' (by decide)
    rw [hf]
    apply String.ext
    simp only [replace_to_end]
    rw [hdata]
    simp


end X264
